import Mathlib

/-!
Verification of the texrecon pipeline surface (apps/texrecon/texrecon.cpp).

This file gives a shallow embedding of the core code of the repository:
the labeling-override validation loop shared by main and
reconstructTexture, the atlas consolidation function build_model, and the
control flow of the library entry point reconstructTexture.  External
collaborators (mesh/view loading, view selection, patch and atlas
generation) enter as opaque parameters; their data is modelled by the
structures below.  Machine indices (std::size_t, unsigned int, the
non-negative int indices stored in glm::ivec3) are modelled as Nat;
float payloads (positions, normals, texcoords) are only ever copied by
the embedded code, never computed with, so they are modelled as opaque
integer triples/pairs.
-/

namespace Texrecon

/-- glm::vec3 / math::Vec3f payload: three components, only ever copied. -/
structure Vec3 where
  x : Int
  y : Int
  z : Int
deriving DecidableEq, Repr

/-- glm::vec2 / math::Vec2f payload: two components, only ever copied. -/
structure Vec2 where
  u : Int
  v : Int
deriving DecidableEq, Repr

def v3zero : Vec3 := ⟨0, 0, 0⟩

/-- tex::Graph as used by texrecon.cpp: one label per face node.
tex::Graph(num_faces) initialises every node label to 0 (spec section 3:
label 0 means unlabeled/background). -/
structure Graph where
  labels : List Nat
deriving DecidableEq, Repr

def Graph.num_nodes (g : Graph) : Nat := g.labels.length

def Graph.set_label (g : Graph) (i label : Nat) : Graph := ⟨g.labels.set i label⟩

def Graph.get_label (g : Graph) (i : Nat) : Nat := g.labels.getD i 0

/-- The error message of the labeling-override failure paths of
reconstructTexture (texrecon.cpp lines 377 and 383): the C++ builds
std::string("Wrong labeling file ... aborting!\n") + '\n'. -/
def labelingMismatchMsg : String :=
  "Wrong labeling file for this mesh/scene combination... aborting!\n" ++ "\n"

/-- The transfer loop of texrecon.cpp lines 380-385: walk the loaded
labeling front to back; for each entry, first test label > K (K =
texture_views.size()) and fail there, otherwise graph.set_label(i, label)
and continue.  The error carries the graph state at the moment of the
early return. -/
def transferLoop (K : Nat) : List Nat → Nat → Graph → Except (String × Graph) Graph
  | [], _, g => .ok g
  | label :: rest, i, g =>
    if K < label then .error (labelingMismatchMsg, g)
    else transferLoop K rest (i + 1) (g.set_label i label)

/-- The labeling-override path of texrecon.cpp lines 375-385 (identical
logic at lines 123-137 of main): reject a vector whose length differs
from graph.num_nodes(), otherwise run the transfer loop. -/
def loadLabeling (K : Nat) (labeling : List Nat) (g : Graph) :
    Except (String × Graph) Graph :=
  if labeling.length ≠ g.num_nodes then .error (labelingMismatchMsg, g)
  else transferLoop K labeling 0 g

/-- Writing a list of labels into consecutive nodes starting at index i:
the effect of the set_label calls the transfer loop performs on a prefix
of in-range entries. -/
def setLabelsFrom (g : Graph) (i : Nat) : List Nat → Graph
  | [] => g
  | label :: rest => setLabelsFrom (g.set_label i label) (i + 1) rest

theorem transferLoop_ok_iff (K : Nat) (L : List Nat) :
    ∀ (i : Nat) (g : Graph),
      (∃ g', transferLoop K L i g = .ok g') ↔ (∀ l ∈ L, l ≤ K) := by
  induction L with
  | nil => intro i g; simp [transferLoop]
  | cons a rest ih =>
    intro i g
    simp only [transferLoop]
    by_cases h : K < a
    · simp only [if_pos h]
      constructor
      · rintro ⟨g', hg'⟩; cases hg'
      · intro hall
        exact absurd (hall a (List.mem_cons_self a rest)) (by omega)
    · simp only [if_neg h]
      rw [ih (i + 1) (g.set_label i a)]
      constructor
      · intro hall l hl
        rcases List.mem_cons.mp hl with rfl | hmem
        · omega
        · exact hall l hmem
      · intro hall l hl
        exact hall l (List.mem_cons_of_mem a hl)

theorem transferLoop_err_msg (K : Nat) (L : List Nat) :
    ∀ (i : Nat) (g : Graph) (e : String) (g' : Graph),
      transferLoop K L i g = .error (e, g') → e = labelingMismatchMsg := by
  induction L with
  | nil => intro i g e g' h; cases h
  | cons a rest ih =>
    intro i g e g' h
    simp only [transferLoop] at h
    by_cases hK : K < a
    · rw [if_pos hK] at h; cases h; rfl
    · rw [if_neg hK] at h; exact ih (i + 1) (g.set_label i a) e g' h

theorem loadLabeling_ok_iff (K : Nat) (L : List Nat) (g : Graph) :
    (∃ g', loadLabeling K L g = .ok g') ↔
      (L.length = g.num_nodes ∧ ∀ l ∈ L, l ≤ K) := by
  unfold loadLabeling
  by_cases hlen : L.length = g.num_nodes
  · rw [if_neg (by simp [hlen])]
    rw [transferLoop_ok_iff K L 0 g]
    tauto
  · rw [if_pos (by simp [hlen])]
    constructor
    · rintro ⟨g', hg'⟩; cases hg'
    · rintro ⟨h, -⟩; exact absurd h hlen

theorem loadLabeling_err_msg (K : Nat) (L : List Nat) (g : Graph)
    (e : String) (g' : Graph) (h : loadLabeling K L g = .error (e, g')) :
    e = labelingMismatchMsg := by
  unfold loadLabeling at h
  by_cases hlen : L.length ≠ g.num_nodes
  · rw [if_pos hlen] at h; cases h; rfl
  · rw [if_neg hlen] at h; exact transferLoop_err_msg K L 0 g e g' h

/-- C1.  Labeling override validation: a loaded label vector L is accepted
by the transfer path (and the run proceeds) iff L has exactly
graph.num_nodes entries and every entry is at most K, the number of
texture views; any rejection is signalled with the labeling-mismatch
message.  In particular an entry equal to K is accepted and an entry of
K+1 or more is rejected. -/
theorem c1_labeling_accept_iff :
    (∀ (K : Nat) (L : List Nat) (g : Graph),
      (∃ g', loadLabeling K L g = .ok g') ↔
        (L.length = g.num_nodes ∧ ∀ l ∈ L, l ≤ K)) ∧
    (∀ (K : Nat) (L : List Nat) (g : Graph) (e : String) (g' : Graph),
      loadLabeling K L g = .error (e, g') → e = labelingMismatchMsg) ∧
    (∃ g', loadLabeling 2 [0, 1, 2] ⟨[0, 0, 0]⟩ = .ok g') ∧
    (∀ g', loadLabeling 2 [0, 1, 3] ⟨[0, 0, 0]⟩ ≠ .ok g') := by
  refine ⟨loadLabeling_ok_iff, ?_, ?_, ?_⟩
  · intro K L g e g' h; exact loadLabeling_err_msg K L g e g' h
  · exact ⟨⟨[0, 1, 2]⟩, rfl⟩
  · intro g' h
    have := (loadLabeling_ok_iff 2 [0, 1, 3] ⟨[0, 0, 0]⟩).mp ⟨g', h⟩
    have h3 := this.2 3 (by decide)
    omega

/-- C1 witness: the validation rule applied at a concrete graph and
vector (3 nodes, K = 2 views, labels 0, 1, 2 all accepted). -/
theorem c1_labeling_accept_iff_witness :
    ∃ g', loadLabeling 2 [0, 1, 2] ⟨[0, 0, 0]⟩ = .ok g' :=
  c1_labeling_accept_iff.2.2.1

theorem transferLoop_prefix_err (K : Nat) (pre : List Nat) :
    ∀ (l : Nat) (post : List Nat) (i : Nat) (g : Graph),
      (∀ x ∈ pre, x ≤ K) → K < l →
      transferLoop K (pre ++ l :: post) i g =
        .error (labelingMismatchMsg, setLabelsFrom g i pre) := by
  induction pre with
  | nil =>
    intro l post i g _ hl
    simp only [List.nil_append, transferLoop, setLabelsFrom]
    rw [if_pos hl]
  | cons a rest ih =>
    intro l post i g hall hl
    have ha : a ≤ K := hall a (List.mem_cons_self a rest)
    simp only [List.cons_append, transferLoop, setLabelsFrom]
    rw [if_neg (by omega)]
    exact ih l post (i + 1) (g.set_label i a)
      (fun x hx => hall x (List.mem_cons_of_mem a hx)) hl

/-- C2 counterexample.  With K = 2 views and a 2-node graph whose labels
start at 0, the vector [1, 5] fails validation on its second entry, but
by then graph.set_label(0, 1) has already taken effect: the graph at the
failure holds labels [1, 0], not the original [0, 0].  This refutes the
claim that no set_label call takes effect before the failure for any
position of the offending entry. -/
theorem c2_counterexample :
    loadLabeling 2 [1, 5] ⟨[0, 0]⟩ = .error (labelingMismatchMsg, ⟨[1, 0]⟩) ∧
      (⟨[1, 0]⟩ : Graph) ≠ (⟨[0, 0]⟩ : Graph) :=
  ⟨rfl, by decide⟩

/-- C2 (amended).  A label vector of the wrong length fails validation
before any set_label call, leaving the graph unmodified.  A vector of the
right length whose first out-of-range entry (greater than K) sits after a
prefix of in-range entries fails validation with exactly that prefix
already transferred into the graph by set_label calls; entries from the
offending position onward are not written. -/
theorem c2_failure_graph_state :
    (∀ (K : Nat) (L : List Nat) (g : Graph), L.length ≠ g.num_nodes →
      loadLabeling K L g = .error (labelingMismatchMsg, g)) ∧
    (∀ (K l : Nat) (pre post : List Nat) (g : Graph),
      (pre ++ l :: post).length = g.num_nodes →
      (∀ x ∈ pre, x ≤ K) → K < l →
      loadLabeling K (pre ++ l :: post) g =
        .error (labelingMismatchMsg, setLabelsFrom g 0 pre)) := by
  constructor
  · intro K L g hlen
    unfold loadLabeling
    rw [if_pos hlen]
  · intro K l pre post g hlen hpre hl
    unfold loadLabeling
    rw [if_neg (by simp [hlen])]
    exact transferLoop_prefix_err K pre l post 0 g hpre hl

/-- C2 witness: the amended statement applied at concrete inputs, one for
the wrong-length case and one for the out-of-range-entry case. -/
theorem c2_failure_graph_state_witness :
    loadLabeling 0 [0] ⟨[]⟩ = .error (labelingMismatchMsg, ⟨[]⟩) ∧
    loadLabeling 2 ([1] ++ 5 :: []) ⟨[0, 0]⟩ =
      .error (labelingMismatchMsg, setLabelsFrom ⟨[0, 0]⟩ 0 [1]) :=
  ⟨c2_failure_graph_state.1 0 [0] ⟨[]⟩ (by decide),
   c2_failure_graph_state.2 2 5 [1] [] ⟨[0, 0]⟩ (by decide) (by decide)
     (by decide)⟩

/-- mve::TriangleMesh as consumed by build_model: vertex positions,
per-vertex normals, and a flat face index buffer (3 vertex indices per
triangle). -/
structure TriangleMesh where
  vertices : List Vec3
  vertex_normals : List Vec3
  faces : List Nat
deriving DecidableEq, Repr

/-- The packed raster owned by a texture atlas: width, height, and raw
bytes (3 per pixel, RGB). -/
structure AtlasImage where
  width : Nat
  height : Nat
  data : List Nat
deriving DecidableEq, Repr

/-- tex::TextureAtlas data consumed by build_model: the packed image, the
contained original-mesh face indices, the atlas-local texcoord array, and
the flat per-face-corner texcoord-index array (3 entries per face). -/
structure TextureAtlas where
  image : AtlasImage
  faces : List Nat
  texcoords : List Vec2
  texcoord_ids : List Nat
deriving DecidableEq, Repr

/-- The output buffers build_model populates and reconstructTexture passes
by reference (points, normals, texCoords, triangles, textureWidth,
textureHeight, textureData). -/
structure ModelBuffers where
  points : List Vec3
  normals : List Vec3
  texCoords : List Vec2
  triangles : List (Nat × Nat × Nat)
  textureWidth : Nat
  textureHeight : Nat
  textureData : List Nat
deriving DecidableEq, Repr

/-- The triangle loop of build_model (texrecon.cpp lines 256-264): per
atlas face i, the output triangle is the triple of atlas-local texcoord
indices atlas_texcoord_ids[i*3 .. i*3+2]. -/
def atlasTriangles (a : TextureAtlas) : List (Nat × Nat × Nat) :=
  (List.range a.faces.length).map (fun i =>
    (a.texcoord_ids.getD (i * 3) 0,
     a.texcoord_ids.getD (i * 3 + 1) 0,
     a.texcoord_ids.getD (i * 3 + 2) 0))

/-- The vertexIndices buffer of build_model (texrecon.cpp line 260): per
atlas face i, the three original-mesh vertex indices copied from
mesh_faces at offset atlas_faces[i] * 3. -/
def atlasVertexIndices (mesh : TriangleMesh) (a : TextureAtlas) :
    List (Nat × Nat × Nat) :=
  (List.range a.faces.length).map (fun i =>
    (mesh.faces.getD (a.faces.getD i 0 * 3) 0,
     mesh.faces.getD (a.faces.getD i 0 * 3 + 1) 0,
     mesh.faces.getD (a.faces.getD i 0 * 3 + 2) 0))

/-- One iteration of the inner corner loop of texrecon.cpp lines 266-268:
texCoordVertexIndices[triangles[i][j]] = vertexIndices[i][j] for
j = 0, 1, 2 in order. -/
def tcviStep (acc : List Nat) (p : (Nat × Nat × Nat) × (Nat × Nat × Nat)) :
    List Nat :=
  ((acc.set p.1.1 p.2.1).set p.1.2.1 p.2.2.1).set p.1.2.2 p.2.2.2

/-- The texCoordVertexIndices map of build_model (texrecon.cpp lines
265-268): a vector of texCoords.size() entries value-initialised to 0,
then overwritten corner by corner, faces in order, corners j = 0, 1, 2 in
order (later writes win). -/
def texCoordVertexIndices (mesh : TriangleMesh) (a : TextureAtlas) :
    List Nat :=
  ((atlasTriangles a).zip (atlasVertexIndices mesh a)).foldl tcviStep
    (List.replicate a.texcoords.length 0)

/-- build_model (texrecon.cpp lines 227-276).  Empty atlas list: the
output buffers are left untouched (the body is one big if on
!texture_atlases.empty()).  Otherwise only texture_atlases.front() is
read: its raster fixes textureWidth/textureHeight and textureData
(resize to w*h*3 then memcpy that many bytes from the image), its
texcoord array is copied verbatim into texCoords and fixes the output
vertex count, triangles are the per-face texcoord-index triples, and
points/normals are gathered from the original mesh through
texCoordVertexIndices. -/
def build_model (mesh : TriangleMesh) (texture_atlases : List TextureAtlas)
    (bufs : ModelBuffers) : ModelBuffers :=
  match texture_atlases with
  | [] => bufs
  | texture_atlas :: _ =>
    let image := texture_atlas.image
    let tcvi := texCoordVertexIndices mesh texture_atlas
    { textureWidth := image.width
      textureHeight := image.height
      textureData := image.data.take (image.width * image.height * 3)
      texCoords := texture_atlas.texcoords
      triangles := atlasTriangles texture_atlas
      points := (List.range texture_atlas.texcoords.length).map
        (fun i => mesh.vertices.getD (tcvi.getD i 0) v3zero)
      normals := (List.range texture_atlas.texcoords.length).map
        (fun i => mesh.vertex_normals.getD (tcvi.getD i 0) v3zero) }

theorem getD_range_map {α : Type} (f : Nat → α) (n v : Nat) (d : α)
    (h : v < n) : ((List.range n).map f).getD v d = f v := by
  have hlen : v < ((List.range n).map f).length := by simpa using h
  rw [List.getD_eq_getElem?_getD, List.getElem?_eq_getElem hlen]
  simp

theorem getD_mem_of_lt (l : List Nat) (k : Nat) (h : k < l.length) :
    l.getD k 0 ∈ l := by
  rw [List.getD_eq_getElem?_getD, List.getElem?_eq_getElem h]
  exact List.getElem_mem h

/-- C4.  Output-vertex count invariant: on a non-empty atlas list the
output points, normals and texCoords arrays all have the length of the
first atlas's texcoord array, and texCoords is that array copied
verbatim. -/
theorem c4_output_vertex_count (mesh : TriangleMesh) (a : TextureAtlas)
    (rest : List TextureAtlas) (bufs : ModelBuffers) :
    (build_model mesh (a :: rest) bufs).points.length = a.texcoords.length ∧
    (build_model mesh (a :: rest) bufs).normals.length = a.texcoords.length ∧
    (build_model mesh (a :: rest) bufs).texCoords.length = a.texcoords.length ∧
    (build_model mesh (a :: rest) bufs).texCoords = a.texcoords := by
  refine ⟨?_, ?_, rfl, rfl⟩ <;> simp [build_model]

/-- C5.  Triangle emission rule and index bound: build_model emits one
triangle per face of the first atlas, each being that face's triple of
atlas-local texcoord indices read from the per-corner texcoord-index
array; and when the atlas is well-formed (texcoord_ids holds 3 entries
per face, each below the texcoord count) every emitted index is below
len(points). -/
theorem c5_triangle_emission (mesh : TriangleMesh) (a : TextureAtlas)
    (rest : List TextureAtlas) (bufs : ModelBuffers)
    (hlen : a.texcoord_ids.length = 3 * a.faces.length)
    (hids : ∀ n ∈ a.texcoord_ids, n < a.texcoords.length) :
    (build_model mesh (a :: rest) bufs).triangles.length = a.faces.length ∧
    (∀ i, i < a.faces.length →
      (build_model mesh (a :: rest) bufs).triangles.getD i (0, 0, 0) =
        (a.texcoord_ids.getD (i * 3) 0,
         a.texcoord_ids.getD (i * 3 + 1) 0,
         a.texcoord_ids.getD (i * 3 + 2) 0)) ∧
    (∀ t ∈ (build_model mesh (a :: rest) bufs).triangles,
      t.1 < (build_model mesh (a :: rest) bufs).points.length ∧
      t.2.1 < (build_model mesh (a :: rest) bufs).points.length ∧
      t.2.2 < (build_model mesh (a :: rest) bufs).points.length) := by
  have hpts : (build_model mesh (a :: rest) bufs).points.length =
      a.texcoords.length := by simp [build_model]
  refine ⟨by simp [build_model, atlasTriangles], ?_, ?_⟩
  · intro i hi
    show (atlasTriangles a).getD i (0, 0, 0) = _
    unfold atlasTriangles
    rw [getD_range_map _ _ _ _ hi]
  · intro t ht
    rw [hpts]
    have ht' : t ∈ atlasTriangles a := ht
    unfold atlasTriangles at ht'
    rcases List.mem_map.mp ht' with ⟨i, hi, rfl⟩
    have hi' : i < a.faces.length := List.mem_range.mp hi
    refine ⟨?_, ?_, ?_⟩ <;>
      exact hids _ (getD_mem_of_lt a.texcoord_ids _ (by omega))

/-- C5 witness: the triangle rule applied to a concrete one-face atlas. -/
theorem c5_triangle_emission_witness :
    (build_model ⟨[⟨1, 2, 3⟩], [⟨0, 0, 1⟩], [0, 0, 0]⟩
        [⟨⟨1, 1, [9, 9, 9]⟩, [0], [⟨0, 0⟩, ⟨1, 1⟩], [0, 1, 1]⟩]
        ⟨[], [], [], [], 0, 0, []⟩).triangles.length = 1 := by
  have h := c5_triangle_emission ⟨[⟨1, 2, 3⟩], [⟨0, 0, 1⟩], [0, 0, 0]⟩
    ⟨⟨1, 1, [9, 9, 9]⟩, [0], [⟨0, 0⟩, ⟨1, 1⟩], [0, 1, 1]⟩ []
    ⟨[], [], [], [], 0, 0, []⟩ (by decide) (by decide)
  exact h.1

/-- C6 counterexample.  build_model called with an empty atlas list does
not clear the output buffers: with buffers that arrive non-empty, the
result still holds the old contents, so the consolidated model is not
empty as the claim states. -/
theorem c6_counterexample :
    ¬ ((build_model ⟨[⟨1, 2, 3⟩], [⟨0, 0, 1⟩], [0, 0, 0]⟩ []
          ⟨[⟨7, 8, 9⟩], [⟨1, 0, 0⟩], [⟨1, 2⟩], [(0, 0, 0)], 4, 5,
            [1, 2, 3]⟩).points = [] ∧
       (build_model ⟨[⟨1, 2, 3⟩], [⟨0, 0, 1⟩], [0, 0, 0]⟩ []
          ⟨[⟨7, 8, 9⟩], [⟨1, 0, 0⟩], [⟨1, 2⟩], [(0, 0, 0)], 4, 5,
            [1, 2, 3]⟩).triangles = []) := by
  decide

/-- C6 (amended).  If the atlas list passed to build_model is empty, the
function returns without touching the output buffers and raises no
error: points, normals, texCoords and triangles keep exactly the
contents they held at entry, so they are empty precisely when they were
empty before the call (as in CLI mode, where the model buffers start
fresh). -/
theorem c6_empty_atlases (mesh : TriangleMesh) (bufs : ModelBuffers) :
    build_model mesh [] bufs = bufs := rfl

/-- C7.  Single-atlas texture rule: on a non-empty atlas list,
textureWidth and textureHeight come from the first atlas's raster,
textureData is resized to width*height*3 bytes and (given the image
holds exactly that many bytes, 3 per RGB pixel) is a verbatim copy of
the first atlas's image bytes, and the whole result is unchanged if all
atlases after the first are dropped. -/
theorem c7_single_atlas_texture (mesh : TriangleMesh) (a : TextureAtlas)
    (rest : List TextureAtlas) (bufs : ModelBuffers)
    (himg : a.image.data.length = a.image.width * a.image.height * 3) :
    (build_model mesh (a :: rest) bufs).textureWidth = a.image.width ∧
    (build_model mesh (a :: rest) bufs).textureHeight = a.image.height ∧
    (build_model mesh (a :: rest) bufs).textureData.length =
      a.image.width * a.image.height * 3 ∧
    (build_model mesh (a :: rest) bufs).textureData = a.image.data ∧
    build_model mesh (a :: rest) bufs = build_model mesh [a] bufs := by
  have hdata : (build_model mesh (a :: rest) bufs).textureData =
      a.image.data := by
    show a.image.data.take (a.image.width * a.image.height * 3) = a.image.data
    rw [← himg, List.take_length]
  exact ⟨rfl, rfl, by rw [hdata, himg], hdata, rfl⟩

/-- C7 witness: the texture rule applied to a concrete two-atlas list
whose first image is 1x2 with 6 bytes. -/
theorem c7_single_atlas_texture_witness :
    (build_model ⟨[], [], []⟩
        [⟨⟨1, 2, [1, 2, 3, 4, 5, 6]⟩, [], [], []⟩,
         ⟨⟨3, 3, []⟩, [], [], []⟩]
        ⟨[], [], [], [], 0, 0, []⟩).textureData = [1, 2, 3, 4, 5, 6] := by
  have h := c7_single_atlas_texture ⟨[], [], []⟩
    ⟨⟨1, 2, [1, 2, 3, 4, 5, 6]⟩, [], [], []⟩ [⟨⟨3, 3, []⟩, [], [], []⟩]
    ⟨[], [], [], [], 0, 0, []⟩ (by decide)
  exact h.2.2.2.1

/-- A concrete one-vertex mesh whose single face repeats vertex 0. -/
def exMesh : TriangleMesh := ⟨[⟨1, 2, 3⟩], [⟨0, 0, 1⟩], [0, 0, 0]⟩

/-- A concrete one-face atlas with two texcoords, both referenced, whose
corners pair texcoords 0 and 1 with the same original vertex. -/
def exAtlas : TextureAtlas :=
  ⟨⟨1, 1, [9, 9, 9]⟩, [0], [⟨0, 0⟩, ⟨1, 1⟩], [0, 1, 1]⟩

/-- A concrete one-face atlas with two texcoords of which texcoord 1 is
referenced by no corner. -/
def exAtlas2 : TextureAtlas :=
  ⟨⟨1, 1, [9, 9, 9]⟩, [0], [⟨0, 0⟩, ⟨1, 1⟩], [0, 0, 0]⟩

/-- Fresh (empty) output buffers. -/
def exBufs : ModelBuffers := ⟨[], [], [], [], 0, 0, []⟩

theorem build_model_points_eq (mesh : TriangleMesh) (a : TextureAtlas)
    (rest : List TextureAtlas) (bufs : ModelBuffers) :
    (build_model mesh (a :: rest) bufs).points =
      (List.range a.texcoords.length).map
        (fun i => mesh.vertices.getD
          ((texCoordVertexIndices mesh a).getD i 0) v3zero) := rfl

theorem build_model_normals_eq (mesh : TriangleMesh) (a : TextureAtlas)
    (rest : List TextureAtlas) (bufs : ModelBuffers) :
    (build_model mesh (a :: rest) bufs).normals =
      (List.range a.texcoords.length).map
        (fun i => mesh.vertex_normals.getD
          ((texCoordVertexIndices mesh a).getD i 0) v3zero) := rfl

/-- C3.  Atlas consolidation vertex-data rule: build_model builds the
texCoordVertexIndices map from the per-face corner pairings of the first
atlas, and every output vertex v takes its position and normal from the
original mesh at the mapped vertex index; the map need not be injective,
so distinct output vertices may draw from the same original vertex. -/
theorem c3_vertex_data :
    (∀ (mesh : TriangleMesh) (a : TextureAtlas) (rest : List TextureAtlas)
        (bufs : ModelBuffers) (v : Nat), v < a.texcoords.length →
      (build_model mesh (a :: rest) bufs).points.getD v v3zero =
        mesh.vertices.getD ((texCoordVertexIndices mesh a).getD v 0) v3zero ∧
      (build_model mesh (a :: rest) bufs).normals.getD v v3zero =
        mesh.vertex_normals.getD
          ((texCoordVertexIndices mesh a).getD v 0) v3zero) ∧
    (∃ (mesh : TriangleMesh) (a : TextureAtlas) (v w : Nat),
      v ≠ w ∧ v < a.texcoords.length ∧ w < a.texcoords.length ∧
      (texCoordVertexIndices mesh a).getD v 0 =
        (texCoordVertexIndices mesh a).getD w 0) := by
  constructor
  · intro mesh a rest bufs v hv
    rw [build_model_points_eq, build_model_normals_eq,
      getD_range_map _ _ _ _ hv, getD_range_map _ _ _ _ hv]
    exact ⟨rfl, rfl⟩
  · exact ⟨exMesh, exAtlas, 0, 1, by decide, by decide, by decide, by decide⟩

/-- C3 witness: the vertex-data rule applied at a concrete mesh, atlas
and output vertex. -/
theorem c3_vertex_data_witness :
    (build_model exMesh [exAtlas] exBufs).points.getD 0 v3zero =
      exMesh.vertices.getD
        ((texCoordVertexIndices exMesh exAtlas).getD 0 0) v3zero :=
  (c3_vertex_data.1 exMesh exAtlas [] exBufs 0 (by decide)).1

theorem length_foldl_tcviStep
    (ps : List ((Nat × Nat × Nat) × (Nat × Nat × Nat))) :
    ∀ acc : List Nat, (ps.foldl tcviStep acc).length = acc.length := by
  induction ps with
  | nil => intro acc; rfl
  | cons p rest ih =>
    intro acc
    rw [List.foldl_cons, ih]
    simp [tcviStep]

theorem mem_foldl_tcviStep {P : Nat → Prop}
    (ps : List ((Nat × Nat × Nat) × (Nat × Nat × Nat)))
    (hps : ∀ p ∈ ps, P p.2.1 ∧ P p.2.2.1 ∧ P p.2.2.2) :
    ∀ acc : List Nat, (∀ x ∈ acc, P x) →
      ∀ x ∈ ps.foldl tcviStep acc, P x := by
  induction ps with
  | nil => intro acc hacc; exact hacc
  | cons p rest ih =>
    intro acc hacc
    rw [List.foldl_cons]
    refine ih (fun q hq => hps q (List.mem_cons_of_mem p hq)) _ ?_
    have hp := hps p (List.mem_cons_self p rest)
    intro x hx
    unfold tcviStep at hx
    rcases List.mem_or_eq_of_mem_set hx with hx | rfl
    · rcases List.mem_or_eq_of_mem_set hx with hx | rfl
      · rcases List.mem_or_eq_of_mem_set hx with hx | rfl
        · exact hacc x hx
        · exact hp.1
      · exact hp.2.1
    · exact hp.2.2

theorem getElem?_foldl_tcviStep_ne
    (ps : List ((Nat × Nat × Nat) × (Nat × Nat × Nat))) (v : Nat)
    (hps : ∀ p ∈ ps, v ≠ p.1.1 ∧ v ≠ p.1.2.1 ∧ v ≠ p.1.2.2) :
    ∀ acc : List Nat, (ps.foldl tcviStep acc)[v]? = acc[v]? := by
  induction ps with
  | nil => intro acc; rfl
  | cons p rest ih =>
    intro acc
    rw [List.foldl_cons, ih (fun q hq => hps q (List.mem_cons_of_mem p hq))]
    have hp := hps p (List.mem_cons_self p rest)
    unfold tcviStep
    rw [List.getElem?_set_ne (Ne.symm hp.2.2),
      List.getElem?_set_ne (Ne.symm hp.2.1),
      List.getElem?_set_ne (Ne.symm hp.1)]

/-- C10.  The texcoord-to-vertex map is value-initialised to zero, so an
output vertex whose texcoord index is referenced by no corner of any
atlas face maps to 0 and receives the position and normal of original
mesh vertex 0; and whenever the mesh is non-empty and every referenced
vertex index and texcoord index is in range, every entry of the map is
below both the vertex and the normal count, so all position/normal reads
are in bounds. -/
theorem c10_map_default_and_bounds :
    (∀ (mesh : TriangleMesh) (a : TextureAtlas) (rest : List TextureAtlas)
        (bufs : ModelBuffers) (v : Nat), v < a.texcoords.length →
      (∀ t ∈ atlasTriangles a, v ≠ t.1 ∧ v ≠ t.2.1 ∧ v ≠ t.2.2) →
      (texCoordVertexIndices mesh a).getD v 0 = 0 ∧
      (build_model mesh (a :: rest) bufs).points.getD v v3zero =
        mesh.vertices.getD 0 v3zero ∧
      (build_model mesh (a :: rest) bufs).normals.getD v v3zero =
        mesh.vertex_normals.getD 0 v3zero) ∧
    (∀ (mesh : TriangleMesh) (a : TextureAtlas),
      mesh.vertices ≠ [] → mesh.vertex_normals ≠ [] →
      (∀ p ∈ atlasVertexIndices mesh a,
        (p.1 < mesh.vertices.length ∧ p.2.1 < mesh.vertices.length ∧
          p.2.2 < mesh.vertices.length) ∧
        (p.1 < mesh.vertex_normals.length ∧
          p.2.1 < mesh.vertex_normals.length ∧
          p.2.2 < mesh.vertex_normals.length)) →
      (∀ t ∈ atlasTriangles a, t.1 < a.texcoords.length ∧
        t.2.1 < a.texcoords.length ∧ t.2.2 < a.texcoords.length) →
      ∀ x ∈ texCoordVertexIndices mesh a,
        x < mesh.vertices.length ∧ x < mesh.vertex_normals.length) := by
  constructor
  · intro mesh a rest bufs v hv hunref
    have hmap : (texCoordVertexIndices mesh a).getD v 0 = 0 := by
      unfold texCoordVertexIndices
      rw [List.getD_eq_getElem?_getD]
      rw [getElem?_foldl_tcviStep_ne _ v ?hps]
      · rw [List.getElem?_replicate_of_lt hv]
        rfl
      case hps =>
        rintro ⟨t, w⟩ hq
        exact hunref t (List.of_mem_zip hq).1
    refine ⟨hmap, ?_, ?_⟩
    · rw [build_model_points_eq, getD_range_map _ _ _ _ hv, hmap]
    · rw [build_model_normals_eq, getD_range_map _ _ _ _ hv, hmap]
  · intro mesh a hv hn hvert htc
    unfold texCoordVertexIndices
    refine mem_foldl_tcviStep _ ?_ _ ?_
    · rintro ⟨t, w⟩ hq
      have hw := (List.of_mem_zip hq).2
      have h1 := (hvert w hw).1
      have h2 := (hvert w hw).2
      exact ⟨⟨h1.1, h2.1⟩, ⟨h1.2.1, h2.2.1⟩, ⟨h1.2.2, h2.2.2⟩⟩
    · intro x hx
      have hx0 : x = 0 := List.eq_of_mem_replicate hx
      subst hx0
      exact ⟨List.length_pos.mpr hv, List.length_pos.mpr hn⟩

/-- C10 witness: the zero-default rule at a concrete atlas whose
texcoord 1 is unreferenced, and the bounds rule at a concrete one-vertex
mesh and one-face atlas. -/
theorem c10_map_default_and_bounds_witness :
    (texCoordVertexIndices exMesh exAtlas2).getD 1 0 = 0 ∧
    (∀ x ∈ texCoordVertexIndices exMesh exAtlas,
      x < exMesh.vertices.length ∧ x < exMesh.vertex_normals.length) :=
  ⟨(c10_map_default_and_bounds.1 exMesh exAtlas2 [] exBufs 1 (by decide)
      (by decide)).1,
   c10_map_default_and_bounds.2 exMesh exAtlas (by decide) (by decide)
     (by decide) (by decide)⟩

/-- The Arguments fields that decide control flow inside
reconstructTexture: the optional precomputed data-cost and labeling file
paths (the empty string means not supplied, matching
conf.labeling_file.empty() / conf.data_cost_file.empty()). -/
structure Conf where
  labeling_file : String
  data_cost_file : String

/-- The external collaborators reconstructTexture invokes, as opaque
parameters of the embedding: the number of generated texture views
(texture_views.size()), the outcome of tex::DataCosts::load_from_file
(some e models a util::FileException whose what() is e), the in-place
label assignment of tex::view_selection, the vector read by
vector_from_file, and the atlases that patch generation plus
tex::generate_texture_atlases produce from the labeled graph. -/
structure Externals where
  numViews : Nat
  costLoad : Option String
  viewSelect : Graph → Graph
  labelingContent : List Nat
  atlases : Graph → List TextureAtlas

/-- texrecon.cpp lines 308-315: the internal mve::TriangleMesh is filled
by memcpy from the caller's points, normals and triangles buffers; the
face buffer receives the triangles flattened (3 indices per triple). -/
def meshFromBuffers (bufs : ModelBuffers) : TriangleMesh :=
  { vertices := bufs.points
    vertex_normals := bufs.normals
    faces := bufs.triangles.foldr
      (fun t acc => t.1 :: t.2.1 :: t.2.2 :: acc) [] }

/-- texrecon.cpp line 326: num_faces = mesh->get_faces().size() / 3. -/
def rtNumFaces (bufs : ModelBuffers) : Nat :=
  (meshFromBuffers bufs).faces.length / 3

/-- The labeling phase of reconstructTexture (texrecon.cpp lines
329-388): the graph starts with all labels 0; with no labeling file the
data costs are computed or loaded (a load failure returns the failed!
string) and tex::view_selection assigns the labels; with a labeling file
the loaded vector is validated and transferred by loadLabeling. -/
def rtGraph (ext : Externals) (conf : Conf) (bufs : ModelBuffers) :
    Except String Graph :=
  let graph : Graph := ⟨List.replicate (rtNumFaces bufs) 0⟩
  if conf.labeling_file = "" then
    if conf.data_cost_file = "" then .ok (ext.viewSelect graph)
    else
      match ext.costLoad with
      | some ewhat => .error ("failed!\n" ++ ewhat ++ "\n")
      | none => .ok (ext.viewSelect graph)
  else
    match loadLabeling ext.numViews ext.labelingContent graph with
    | .error e => .error e.1
    | .ok g => .ok g

/-- reconstructTexture (texrecon.cpp lines 278-469): on a failure in the
labeling phase the error string is returned with the caller's buffers
untouched; otherwise the pipeline runs to build_model, which overwrites
the caller's buffers with the consolidated model, and the empty string
is returned. -/
def reconstructTexture (ext : Externals) (conf : Conf)
    (bufs : ModelBuffers) : String × ModelBuffers :=
  match rtGraph ext conf bufs with
  | .error msg => (msg, bufs)
  | .ok g => ("", build_model (meshFromBuffers bufs) (ext.atlases g) bufs)

/-- The condition under which no failure path of reconstructTexture
fires: either no labeling file is supplied and the data costs are
computed or load successfully, or a labeling file is supplied and it
passes validation. -/
def rtSuccess (ext : Externals) (conf : Conf) (bufs : ModelBuffers) :
    Prop :=
  if conf.labeling_file = "" then
    conf.data_cost_file = "" ∨ ext.costLoad = none
  else
    ext.labelingContent.length = rtNumFaces bufs ∧
      ∀ l ∈ ext.labelingContent, l ≤ ext.numViews

theorem rtGraph_num_nodes (bufs : ModelBuffers) :
    (Graph.mk (List.replicate (rtNumFaces bufs) 0)).num_nodes =
      rtNumFaces bufs := by
  simp [Graph.num_nodes]

/-- C8.  Library-mode result contract: reconstructTexture returns the
empty string exactly when no failure condition fired; equivalently every
failure path (cost-file load failure, labeling length mismatch,
out-of-range label) returns a non-empty error string, and the success
path returns exactly the empty string, by returning rather than
terminating the process. -/
theorem c8_result_contract (ext : Externals) (conf : Conf)
    (bufs : ModelBuffers) :
    (reconstructTexture ext conf bufs).1 = "" ↔ rtSuccess ext conf bufs := by
  unfold reconstructTexture rtGraph rtSuccess
  by_cases hlf : conf.labeling_file = ""
  · rw [if_pos hlf, if_pos hlf]
    by_cases hdc : conf.data_cost_file = ""
    · rw [if_pos hdc]
      simp [hdc]
    · rw [if_neg hdc]
      cases hcl : ext.costLoad with
      | some ewhat =>
        simp only [hcl]
        constructor
        · intro h
          have : ("failed!\n" ++ ewhat ++ "\n").length = 0 := by
            rw [h]; rfl
          simp [String.length_append] at this
          have : ("\n" : String).length = 1 := rfl
          omega
        · rintro (h | h)
          · exact absurd h hdc
          · cases h
      | none => simp [hcl]
  · rw [if_neg hlf, if_neg hlf]
    cases hload : loadLabeling ext.numViews ext.labelingContent
        ⟨List.replicate (rtNumFaces bufs) 0⟩ with
    | error e =>
      simp only [hload]
      constructor
      · intro h
        have hmsg := loadLabeling_err_msg _ _ _ e.1 e.2 (by rw [hload])
        rw [hmsg] at h
        exact absurd h (by decide)
      · intro hcond
        have hok := (loadLabeling_ok_iff ext.numViews ext.labelingContent
          ⟨List.replicate (rtNumFaces bufs) 0⟩).mpr
          ⟨by rw [rtGraph_num_nodes]; exact hcond.1, hcond.2⟩
        rcases hok with ⟨g', hg'⟩
        rw [hload] at hg'
        cases hg'
    | ok g =>
      simp only [hload]
      have hok := (loadLabeling_ok_iff ext.numViews ext.labelingContent
        ⟨List.replicate (rtNumFaces bufs) 0⟩).mp ⟨g, hload⟩
      rw [rtGraph_num_nodes] at hok
      simp only [hok.1, true_and]
      constructor
      · intro _; exact hok.2
      · intro _; trivial

/-- C9.  Frame effect of the out-parameters: the internal mesh is built
from the caller's points/normals/triangles buffers, and on a successful
run those same buffers are overwritten by build_model with the
consolidated model computed from that input mesh; in particular, when
the atlas list is empty the buffers still hold the caller's input mesh
rather than an empty model. -/
theorem c9_buffers_overwritten (ext : Externals) (conf : Conf)
    (bufs : ModelBuffers) (g : Graph)
    (hok : rtGraph ext conf bufs = .ok g) :
    reconstructTexture ext conf bufs =
      ("", build_model (meshFromBuffers bufs) (ext.atlases g) bufs) ∧
    (ext.atlases g = [] →
      (reconstructTexture ext conf bufs).2 = bufs) := by
  constructor
  · unfold reconstructTexture
    rw [hok]
  · intro hempty
    unfold reconstructTexture
    rw [hok]
    show (build_model (meshFromBuffers bufs) (ext.atlases g) bufs) = bufs
    rw [hempty]
    rfl

/-- C9 witness: a successful concrete run with no labeling file, no cost
file, and an atlas generator returning no atlases leaves the caller's
buffers holding the input mesh. -/
theorem c9_buffers_overwritten_witness :
    (reconstructTexture
        ⟨0, none, id, [], fun _ => []⟩ ⟨"", ""⟩
        ⟨[⟨7, 8, 9⟩], [⟨1, 0, 0⟩], [⟨1, 2⟩], [(0, 0, 0)], 4, 5,
          [1, 2, 3]⟩).2 =
      ⟨[⟨7, 8, 9⟩], [⟨1, 0, 0⟩], [⟨1, 2⟩], [(0, 0, 0)], 4, 5, [1, 2, 3]⟩ :=
  (c9_buffers_overwritten ⟨0, none, id, [], fun _ => []⟩ ⟨"", ""⟩
    ⟨[⟨7, 8, 9⟩], [⟨1, 0, 0⟩], [⟨1, 2⟩], [(0, 0, 0)], 4, 5, [1, 2, 3]⟩
    ⟨List.replicate 1 0⟩ rfl).2 rfl

end Texrecon
